import Mathlib

/-!
Shallow embedding of the GenAds backend (src/main.py, src/schemas.py):
data model, validation, persistence and the HTTP handlers, with theorems
about the service's behavior.

The persistence module (`database.py`: the `db` handle, `create_document`)
is not part of the sources; its behavior is modelled from the spec where
definitions say so.  Everything else is translated directly from
src/main.py and src/schemas.py.
-/

namespace GenAds

/-! ### BSON ObjectId strings

`bson.ObjectId(s)` accepts exactly the 24-character hexadecimal strings
(case-insensitive) and raises otherwise; `str(ObjectId(...))` is the
canonical lowercase form.  Ids generated by the store are canonical. -/

/-- Hex digit characters `0-9a-fA-F`. -/
def isHexChar (c : Char) : Bool :=
  (('0' ≤ c && c ≤ '9') || ('a' ≤ c && c ≤ 'f')) || ('A' ≤ c && c ≤ 'F')

/-- A string is accepted by `bson.ObjectId` iff it is 24 hex characters. -/
def isValidObjectId (s : String) : Bool :=
  s.length == 24 && s.data.all isHexChar

/-- Lowercase a hex character (identity outside `A-F`). -/
def lowerHexChar (c : Char) : Char :=
  if 'A' ≤ c && c ≤ 'F' then Char.ofNat (c.toNat + 32) else c

/-- Canonical (lowercase) form of a hex string: two valid ObjectId strings
denote the same ObjectId iff their canonical forms coincide. -/
def normHex (s : String) : String :=
  String.mk (s.data.map lowerHexChar)

/-- The lowercase hex digit for `n % 16`. -/
def hexDigitChar (n : Nat) : Char :=
  if n < 10 then Char.ofNat (48 + n) else Char.ofNat (87 + n)

/-- Little-endian hex digits of `n`, padded/truncated to `k` digits. -/
def toHexLE : Nat → Nat → List Char
  | 0, _ => []
  | k + 1, n => hexDigitChar (n % 16) :: toHexLE k (n / 16)

/-- Modelled from the spec: the persistence layer "assigns a generated
unique identifier to each new record" (`database.create_document` is not in
the sources).  The identifier is rendered as a canonical 24-hex-character
ObjectId string; we derive it from the store's creation counter. -/
def genId (n : Nat) : String :=
  String.mk (toHexLE 24 n).reverse

/-! ### Data model (src/schemas.py) -/

/-- A stored `user` document (schemas.User plus its store metadata). -/
structure UserDoc where
  id : String
  name : String
  email : String
  password_hash : String
  avatar_url : Option String
deriving Repr, DecidableEq

/-- schemas.VideoJob: the validated video-job record. -/
structure VideoJob where
  owner_email : String
  project_id : Option String
  project_name : String
  brand_name : String
  brand_detail : String
  creative_prompt : String
  target_audience : String
  video_style : String
  aspect_ratio : String
  duration_seconds : Int
  product_image_url : Option String
  brand_logo_url : Option String
  brand_guideline_url : Option String
  reference_image_url : Option String
  status : String
  thumbnail_url : Option String
  video_url : Option String
  notes : Option String
deriving Repr, DecidableEq

/-- The `aspect_ratio` Literal set of schemas.VideoJob. -/
def aspectRatioValues : List String := ["1:1", "9:16", "16:9", "4:5", "21:9"]

/-- The `status` Literal set of schemas.VideoJob. -/
def statusValues : List String :=
  ["queued", "processing", "completed", "failed", "finalized"]

/-- Pydantic `HttpUrl`: a syntactically valid absolute http(s) URL
(scheme plus nonempty remainder; the library's finer URL grammar is
abstracted at this boundary). -/
def isValidHttpUrl (s : String) : Bool :=
  (s.startsWith "http://" && s.length > 7) ||
    (s.startsWith "https://" && s.length > 8)

/-- An `Optional[HttpUrl]` field is valid when absent or a valid URL. -/
def optUrlOk : Option String → Bool
  | none => true
  | some s => isValidHttpUrl s

/-- main.StepThree: the create-video request body after FastAPI parsing. -/
structure StepThree where
  owner_email : String
  project_name : String
  brand_name : String
  brand_detail : String
  creative_prompt : String
  target_audience : String
  video_style : String
  aspect_ratio : String
  duration_seconds : Int
  product_image_url : Option String
  brand_logo_url : Option String
  brand_guideline_url : Option String
  reference_image_url : Option String
deriving Repr, DecidableEq

/-- The four optional asset URL fields of a payload are each valid. -/
def urlsOk (p : StepThree) : Bool :=
  optUrlOk p.product_image_url && optUrlOk p.brand_logo_url &&
    optUrlOk p.brand_guideline_url && optUrlOk p.reference_image_url

/-- The constraints pydantic checks when `VideoJob(**payload, status=st)` is
constructed: `aspect_ratio` in its Literal set, `duration_seconds` in
`[5, 120]` (`ge=5, le=120`), `status` in its Literal set, URL fields valid. -/
def videoJobValid (p : StepThree) (st : String) : Bool :=
  aspectRatioValues.contains p.aspect_ratio &&
    (decide (5 ≤ p.duration_seconds) && decide (p.duration_seconds ≤ 120)) &&
    statusValues.contains st && urlsOk p

/-- The VideoJob record built from a payload: submitted fields copied
verbatim, every field the payload does not carry left at its schema
default (`project_id`, `thumbnail_url`, `video_url`, `notes` default to
None), `status` as given. -/
def jobOfPayload (p : StepThree) (st : String) : VideoJob :=
  { owner_email := p.owner_email
    project_id := none
    project_name := p.project_name
    brand_name := p.brand_name
    brand_detail := p.brand_detail
    creative_prompt := p.creative_prompt
    target_audience := p.target_audience
    video_style := p.video_style
    aspect_ratio := p.aspect_ratio
    duration_seconds := p.duration_seconds
    product_image_url := p.product_image_url
    brand_logo_url := p.brand_logo_url
    brand_guideline_url := p.brand_guideline_url
    reference_image_url := p.reference_image_url
    status := st
    thumbnail_url := none
    video_url := none
    notes := none }

/-- Constructing `VideoJob(**job.model_dump(), status=st)`: returns the
record when the constraints hold, raises `pydantic.ValidationError`
(here: `none`) otherwise. -/
def mkVideoJob (p : StepThree) (st : String) : Option VideoJob :=
  if videoJobValid p st then some (jobOfPayload p st) else none

/-- A stored `videojob` document: the validated record plus store
metadata.  `created_at` is modelled from the spec: the dashboard returns
the "most recent 20 jobs (descending by creation time)", so the
persistence layer (`database.create_document`, not in the sources) stamps
a creation time on insert. -/
structure JobDoc where
  id : String
  created_at : Nat
  job : VideoJob
deriving Repr, DecidableEq

/-- The record store: the `user` and `videojob` collections plus the
id/clock counters the modelled persistence layer draws from.  (The
`project` collection is never read or written by any endpoint.) -/
structure Store where
  users : List UserDoc
  videojobs : List JobDoc
  nextOid : Nat
  now : Nat
deriving Repr, DecidableEq

/-- The empty store. -/
def emptyStore : Store := { users := [], videojobs := [], nextOid := 0, now := 0 }

/-! ### HTTP result shapes -/

/-- Outcome of a handler: a normal response, an `HTTPException(code, detail)`,
or an exception that escapes the handler (FastAPI renders it as a 500). -/
inductive Resp (α : Type) where
  | ok : α → Resp α
  | err : Nat → String → Resp α
  | fault : String → Resp α
deriving Repr, DecidableEq

/-- A client error: an HTTPException with a 4xx status. -/
def Resp.isClientError : Resp α → Bool
  | .err c _ => 400 ≤ c && c < 500
  | _ => false

/-- A server fault: a 5xx HTTPException or an uncaught exception. -/
def Resp.isServerFault : Resp α → Bool
  | .err c _ => 500 ≤ c
  | .fault _ => true
  | _ => false

/-- Response body of `signup`. -/
structure SignupOut where
  id : String
  name : String
  email : String
deriving Repr, DecidableEq

/-- Response body of `signin`. -/
structure SigninOut where
  message : String
  email : String
  name : String
  avatar_url : Option String
deriving Repr, DecidableEq

/-- A `videojob` document as rendered to the client: `_id` replaced by the
string field `id`. -/
structure JobOut where
  id : String
  created_at : Nat
  job : VideoJob
deriving Repr, DecidableEq

/-- Response body of `dashboard_summary`. -/
structure DashOut where
  total : Nat
  processing : Nat
  videos : List JobOut
deriving Repr, DecidableEq

/-- Response body of `create_video`. -/
structure CreateOut where
  id : String
  status : String
deriving Repr, DecidableEq

/-- Response body of `finalize_video`. -/
structure FinalizeOut where
  id : String
  status : String
deriving Repr, DecidableEq

/-! ### Persistence layer

Modelled from the spec: `database.py` is not in the sources.  Per §4.3,
`create(collection, record)` assigns a new unique identifier, inserts the
record, and returns the identifier; per §7 a store that is unavailable is
surfaced as a server fault, never a silent no-op. -/

/-- Modelled from the spec: `database.create_document("user", u)` — insert
the user record with a fresh generated id and return the id string. -/
def create_document_user (s : Store) (name email password_hash : String)
    (avatar_url : Option String) : String × Store :=
  (genId s.nextOid,
    { s with
        users := s.users ++
          [{ id := genId s.nextOid, name := name, email := email,
             password_hash := password_hash, avatar_url := avatar_url }]
        nextOid := s.nextOid + 1
        now := s.now + 1 })

/-- Modelled from the spec: `database.create_document("videojob", vj)` —
insert the job record with a fresh generated id and a creation timestamp,
returning the id string. -/
def create_document_videojob (s : Store) (vj : VideoJob) : String × Store :=
  (genId s.nextOid,
    { s with
        videojobs := s.videojobs ++
          [{ id := genId s.nextOid, created_at := s.now, job := vj }]
        nextOid := s.nextOid + 1
        now := s.now + 1 })

/-- Mongo `update_one(filter, update)`: updates the first (here: only,
since `_id` is unique) document matching the filter, and is a no-op when
none matches. -/
def updateFirst {α : Type} (p : α → Bool) (f : α → α) : List α → List α
  | [] => []
  | d :: ds => if p d then f d :: ds else d :: updateFirst p f ds

/-! ### Handlers (src/main.py)

Each handler takes the database handle as `Option Store` (`db` is the
module-level handle from `database.py`; `none` models an uninitialized
store).  `signup`/`signin` take the password-hash function
(`hashlib.sha256(...).hexdigest()`) as a parameter. -/

/-- POST /auth/signup (src/main.py:70-81).  Pre-checks the email by
lookup; on a hit raises 400 "Email already registered"; otherwise stores
the user with the hashed password via `create_document` and returns the
created summary.  With `db` unavailable the lookup is skipped (`if db else
None`) and the write itself faults (modelled from the spec: store
unavailable is a server fault, not a silent no-op). -/
def signup (hash : String → String) (db : Option Store)
    (name email password : String) : Resp SignupOut × Option Store :=
  let existing : Option UserDoc :=
    match db with
    | some s => s.users.find? (fun u => u.email == email)
    | none => none
  match existing with
  | some _ => (.err 400 "Email already registered", db)
  | none =>
    match db with
    | none => (.fault "Database not available", none)
    | some s =>
      let r := create_document_user s name email (hash password) none
      (.ok { id := r.1, name := name, email := email }, some r.2)

/-- POST /auth/signin (src/main.py:84-94).  500 when the store is
unavailable; 401 "Invalid credentials" when the email lookup misses or the
stored hash differs from the hash of the supplied password; otherwise the
user summary. -/
def signin (hash : String → String) (db : Option Store)
    (email password : String) : Resp SigninOut :=
  match db with
  | none => .err 500 "Database not available"
  | some s =>
    match s.users.find? (fun u => u.email == email) with
    | none => .err 401 "Invalid credentials"
    | some u =>
      if u.password_hash != hash password then .err 401 "Invalid credentials"
      else .ok { message := "signed_in", email := email, name := u.name,
                 avatar_url := u.avatar_url }

/-- A job document matches the dashboard owner filter. -/
def ownedBy (email : String) (d : JobDoc) : Bool := d.job.owner_email == email

/-- A job document matches the dashboard processing filter
`{"owner_email": email, "status": {"$in": ["queued", "processing"]}}`. -/
def processingFilter (email : String) (d : JobDoc) : Bool :=
  d.job.owner_email == email &&
    (d.job.status == "queued" || d.job.status == "processing")

/-- The sort order `.sort("created_at", -1)`: newer documents first. -/
def newerFirst (a b : JobDoc) : Prop := b.created_at ≤ a.created_at

instance : DecidableRel newerFirst := fun a b => Nat.decLe b.created_at a.created_at

instance : IsTotal JobDoc newerFirst :=
  ⟨fun a b => Nat.le_total b.created_at a.created_at⟩

instance : IsTrans JobDoc newerFirst :=
  ⟨fun _ _ _ h1 h2 => Nat.le_trans h2 h1⟩

/-- Render a stored document to the client: `d["id"] = str(d["_id"])` then
drop `_id`. -/
def docOut (d : JobDoc) : JobOut :=
  { id := d.id, created_at := d.created_at, job := d.job }

/-- GET /dashboard/summary (src/main.py:98-107).  500 when the store is
unavailable; otherwise the owner's total job count, the count matching the
processing filter, and the owner's documents sorted by `created_at`
descending, limited to 20 and rendered. -/
def dashboard_summary (db : Option Store) (email : String) : Resp DashOut :=
  match db with
  | none => .err 500 "Database not available"
  | some s =>
    .ok { total := (s.videojobs.filter (ownedBy email)).length
          processing := (s.videojobs.filter (processingFilter email)).length
          videos :=
            (((List.insertionSort newerFirst
                (s.videojobs.filter (ownedBy email))).take 20).map docOut) }

/-- POST /video/create (src/main.py:144-149).  Constructs the VideoJob
with `status="processing"`; a pydantic validation failure there is an
uncaught exception (a server fault).  On success the record is persisted
via `create_document` (which faults when the store is unavailable,
modelled from the spec) and the id and status are returned. -/
def create_video (db : Option Store) (p : StepThree) :
    Resp CreateOut × Option Store :=
  match mkVideoJob p "processing" with
  | none => (.fault "pydantic.ValidationError", db)
  | some vj =>
    match db with
    | none => (.fault "Database not available", none)
    | some s =>
      let r := create_document_videojob s vj
      (.ok { id := r.1, status := vj.status }, some r.2)

/-- GET /video/\x7bjob_id\x7d (src/main.py:152-163).  500 when the store
is unavailable.  `ObjectId(job_id)` inside try/except: a malformed id
makes the lookup result None, and a missing document likewise; both raise
404 "Not found".  Otherwise the document is rendered with its id. -/
def get_video (db : Option Store) (job_id : String) : Resp JobOut :=
  match db with
  | none => .err 500 "Database not available"
  | some s =>
    let doc : Option JobDoc :=
      if isValidObjectId job_id then
        s.videojobs.find? (fun d => d.id == normHex job_id)
      else none
    match doc with
    | none => .err 404 "Not found"
    | some d => .ok (docOut d)

/-- The `update_one` filter `{"_id": ObjectId(job_id)}`. -/
def finalizeMatch (job_id : String) (d : JobDoc) : Bool := d.id == normHex job_id

/-- The `update_one` update `{"$set": {"status": "finalized"}}`. -/
def setFinalized (d : JobDoc) : JobDoc :=
  { d with job := { d.job with status := "finalized" } }

/-- POST /video/\x7bjob_id\x7d/finalize (src/main.py:166-174).  500 when
the store is unavailable; 400 "Invalid id" when `ObjectId(job_id)` raises;
otherwise `update_one` sets the matching document's status to
"finalized" (a no-op when the id is absent) and the handler
unconditionally returns the id with status "finalized". -/
def finalize_video (db : Option Store) (job_id : String) :
    Resp FinalizeOut × Option Store :=
  match db with
  | none => (.err 500 "Database not available", none)
  | some s =>
    if isValidObjectId job_id then
      (.ok { id := job_id, status := "finalized" },
        some { s with
          videojobs := updateFirst (finalizeMatch job_id) setFinalized
            s.videojobs })
    else (.err 400 "Invalid id", some s)

/-! ### Request parsing for create-video

FastAPI parses the request body into `StepThree` before the handler runs;
a missing required field, a wrong primitive type, or an invalid owner
email is a `RequestValidationError`, rendered as a 422 client error. -/

/-- A JSON primitive as it appears in a request body field. -/
inductive JVal where
  | str : String → JVal
  | int : Int → JVal
  | null : JVal
deriving Repr, DecidableEq

/-- A raw create-video request body: each StepThree field either absent
(`none`) or a JSON primitive. -/
structure RawPayload where
  owner_email : Option JVal
  project_name : Option JVal
  brand_name : Option JVal
  brand_detail : Option JVal
  creative_prompt : Option JVal
  target_audience : Option JVal
  video_style : Option JVal
  aspect_ratio : Option JVal
  duration_seconds : Option JVal
  product_image_url : Option JVal
  brand_logo_url : Option JVal
  brand_guideline_url : Option JVal
  reference_image_url : Option JVal
deriving Repr, DecidableEq

/-- A required `str` field: present and a string. -/
def reqStr : Option JVal → Option String
  | some (.str s) => some s
  | _ => none

/-- A required `int` field: present and an integer. -/
def reqInt : Option JVal → Option Int
  | some (.int n) => some n
  | _ => none

/-- An `Optional[str]` field: absent or null parses to None, a string to
itself, anything else is a type error. -/
def optStr : Option JVal → Option (Option String)
  | none => some none
  | some .null => some none
  | some (.str s) => some (some s)
  | some (.int _) => none

/-- Parse a raw body into StepThree (`EmailStr` validation of
`owner_email` abstracted as the predicate `emailOk`); `none` is a
`RequestValidationError`. -/
def parseStepThree (emailOk : String → Bool) (r : RawPayload) :
    Option StepThree := do
  let owner_email ← reqStr r.owner_email
  let _ ← if emailOk owner_email then some () else none
  let project_name ← reqStr r.project_name
  let brand_name ← reqStr r.brand_name
  let brand_detail ← reqStr r.brand_detail
  let creative_prompt ← reqStr r.creative_prompt
  let target_audience ← reqStr r.target_audience
  let video_style ← reqStr r.video_style
  let aspect_ratio ← reqStr r.aspect_ratio
  let duration_seconds ← reqInt r.duration_seconds
  let product_image_url ← optStr r.product_image_url
  let brand_logo_url ← optStr r.brand_logo_url
  let brand_guideline_url ← optStr r.brand_guideline_url
  let reference_image_url ← optStr r.reference_image_url
  return { owner_email := owner_email, project_name := project_name,
           brand_name := brand_name, brand_detail := brand_detail,
           creative_prompt := creative_prompt,
           target_audience := target_audience, video_style := video_style,
           aspect_ratio := aspect_ratio,
           duration_seconds := duration_seconds,
           product_image_url := product_image_url,
           brand_logo_url := brand_logo_url,
           brand_guideline_url := brand_guideline_url,
           reference_image_url := reference_image_url }

/-- The create-video operation end to end: request parsing (422 on
failure, before the handler and before any store access) followed by the
handler. -/
def handle_create_video (emailOk : String → Bool) (db : Option Store)
    (raw : RawPayload) : Resp CreateOut × Option Store :=
  match parseStepThree emailOk raw with
  | none => (.err 422 "Unprocessable Entity", db)
  | some p => create_video db p

/-! ### Helper lemmas -/

theorem length_toHexLE (k : Nat) : ∀ n, (toHexLE k n).length = k := by
  induction k with
  | zero => intro n; rfl
  | succ k ih => intro n; simp [toHexLE, ih]

theorem isHexChar_hexDigitChar : ∀ m < 16, isHexChar (hexDigitChar m) = true := by
  decide

theorem lowerHexChar_hexDigitChar :
    ∀ m < 16, lowerHexChar (hexDigitChar m) = hexDigitChar m := by
  decide

theorem mem_toHexLE (k : Nat) :
    ∀ n c, c ∈ toHexLE k n → ∃ m, m < 16 ∧ c = hexDigitChar m := by
  induction k with
  | zero => intro n c hc; simp [toHexLE] at hc
  | succ k ih =>
    intro n c hc
    simp only [toHexLE, List.mem_cons] at hc
    rcases hc with h | h
    · exact ⟨n % 16, Nat.mod_lt _ (by omega), h⟩
    · exact ih _ _ h

/-- Generated ids are syntactically valid ObjectId strings. -/
theorem isValidObjectId_genId (n : Nat) : isValidObjectId (genId n) = true := by
  simp only [isValidObjectId, genId, Bool.and_eq_true, beq_iff_eq]
  refine ⟨?_, ?_⟩
  · show (toHexLE 24 n).reverse.length = 24
    simp [length_toHexLE]
  · rw [List.all_eq_true]
    intro c hc
    rw [List.mem_reverse] at hc
    obtain ⟨m, hm, rfl⟩ := mem_toHexLE _ _ _ hc
    exact isHexChar_hexDigitChar m hm

/-- Generated ids are already in canonical (lowercase) form. -/
theorem normHex_genId (n : Nat) : normHex (genId n) = genId n := by
  show String.mk ((toHexLE 24 n).reverse.map lowerHexChar) =
    String.mk (toHexLE 24 n).reverse
  congr 1
  have h : ∀ a ∈ (toHexLE 24 n).reverse, lowerHexChar a = id a := by
    intro a ha
    rw [List.mem_reverse] at ha
    obtain ⟨m, hm, rfl⟩ := mem_toHexLE _ _ _ ha
    exact lowerHexChar_hexDigitChar m hm
  rw [List.map_congr_left h, List.map_id]

theorem updateFirst_of_no_match {α : Type} (p : α → Bool) (f : α → α) :
    ∀ l : List α, (∀ d ∈ l, p d = false) → updateFirst p f l = l := by
  intro l
  induction l with
  | nil => intro _; rfl
  | cons d ds ih =>
    intro h
    simp only [updateFirst, h d (List.mem_cons_self d ds)]
    simp [ih fun x hx => h x (List.mem_cons_of_mem d hx)]

theorem updateFirst_updateFirst {α : Type} (p : α → Bool) (f : α → α)
    (hpf : ∀ d, p (f d) = p d) (hff : ∀ d, f (f d) = f d) :
    ∀ l : List α, updateFirst p f (updateFirst p f l) = updateFirst p f l := by
  intro l
  induction l with
  | nil => rfl
  | cons d ds ih =>
    by_cases hd : p d = true
    · simp [updateFirst, hd, hpf, hff]
    · have hd' : p d = false := by revert hd; cases p d <;> simp
      simp [updateFirst, hd', ih]

theorem find?_updateFirst {α : Type} (p : α → Bool) (f : α → α)
    (hpf : ∀ d, p (f d) = p d) :
    ∀ l : List α, (updateFirst p f l).find? p = (l.find? p).map f := by
  intro l
  induction l with
  | nil => rfl
  | cons d ds ih =>
    by_cases hd : p d = true
    · simp [updateFirst, hd, List.find?_cons, hpf]
    · have hd' : p d = false := by revert hd; cases p d <;> simp
      simp [updateFirst, hd', List.find?_cons, ih]

theorem find?_append_fresh {α : Type} (p : α → Bool) (l : List α) (d : α)
    (h : ∀ x ∈ l, p x = false) (hd : p d = true) :
    (l ++ [d]).find? p = some d := by
  rw [List.find?_append]
  have hl : l.find? p = none := List.find?_eq_none.2 fun x hx => by simp [h x hx]
  simp [hl, List.find?_cons, hd]

theorem get_video_found (s : Store) (job_id : String) (d : JobDoc)
    (hid : isValidObjectId job_id = true)
    (hfind : (s.videojobs.find? fun d => d.id == normHex job_id) = some d) :
    get_video (some s) job_id = .ok (docOut d) := by
  simp [get_video, hid, hfind]

/-- Unfolding of the pydantic VideoJob constraints into propositions. -/
theorem videoJobValid_iff (p : StepThree) (st : String) :
    videoJobValid p st = true ↔
      p.aspect_ratio ∈ aspectRatioValues ∧
        5 ≤ p.duration_seconds ∧ p.duration_seconds ≤ 120 ∧
        st ∈ statusValues ∧ urlsOk p = true := by
  simp [videoJobValid, List.contains, List.elem_iff, and_assoc]

/-! ### Concrete sample values used by witnesses -/

/-- A sample stored user. -/
def userA : UserDoc :=
  { id := "507f1f77bcf86cd799439011", name := "Ada", email := "ada@example.com",
    password_hash := "pw", avatar_url := none }

/-- A store holding exactly `userA`. -/
def storeWithUser : Store :=
  { users := [userA], videojobs := [], nextOid := 1, now := 1 }

/-- A valid sample video job record. -/
def sampleJob : VideoJob :=
  { owner_email := "ada@example.com", project_id := none, project_name := "p",
    brand_name := "b", brand_detail := "", creative_prompt := "c",
    target_audience := "t", video_style := "v", aspect_ratio := "16:9",
    duration_seconds := 15, product_image_url := none, brand_logo_url := none,
    brand_guideline_url := none, reference_image_url := none,
    status := "processing", thumbnail_url := none, video_url := none,
    notes := none }

/-- A valid sample create-video payload. -/
def sampleStep : StepThree :=
  { owner_email := "ada@example.com", project_name := "p", brand_name := "b",
    brand_detail := "", creative_prompt := "c", target_audience := "t",
    video_style := "v", aspect_ratio := "16:9", duration_seconds := 15,
    product_image_url := none, brand_logo_url := none,
    brand_guideline_url := none, reference_image_url := none }

/-- A canonical 24-hex-character job id. -/
def idA : String := "aaaaaaaaaaaaaaaaaaaaaaaa"

/-- A store holding exactly one video job, under id `idA`. -/
def storeWithJob : Store :=
  { users := [], videojobs := [{ id := idA, created_at := 0, job := sampleJob }],
    nextOid := 1, now := 1 }

/-! ### Claim theorems -/

/-- C4: when a user with the given email already exists in the store,
signup returns the 400 "Email already registered" client error and leaves
the store (in particular the user collection) unchanged. -/
theorem C4_signup_duplicate_email (hash : String → String) (s : Store)
    (name email password : String)
    (hex : ∃ u ∈ s.users, u.email = email) :
    signup hash (some s) name email password =
      (.err 400 "Email already registered", some s) := by
  obtain ⟨u, hu, he⟩ := hex
  have hsome : (s.users.find? fun u => u.email == email).isSome :=
    List.find?_isSome.2 ⟨u, hu, by simp [he]⟩
  obtain ⟨v, hv⟩ := Option.isSome_iff_exists.mp hsome
  simp [signup, hv]

/-- Witness for C4 at a concrete store. -/
theorem C4_signup_duplicate_email_witness :
    signup (fun p => p) (some storeWithUser) "Eve" "ada@example.com" "x" =
      (.err 400 "Email already registered", some storeWithUser) :=
  C4_signup_duplicate_email (fun p => p) storeWithUser "Eve" "ada@example.com" "x"
    ⟨userA, by simp [storeWithUser], rfl⟩

/-- C8: signin with an email absent from the user collection and signin
with a present email but a mismatching password hash return the identical
401 "Invalid credentials" error. -/
theorem C8_signin_uniform_error (hash : String → String) (s : Store)
    (email pw : String) :
    ((s.users.find? fun u => u.email == email) = none →
      signin hash (some s) email pw = .err 401 "Invalid credentials") ∧
    (∀ u, (s.users.find? fun u => u.email == email) = some u →
      u.password_hash ≠ hash pw →
      signin hash (some s) email pw = .err 401 "Invalid credentials") := by
  constructor
  · intro h
    simp [signin, h]
  · intro u hu hne
    simp [signin, hu, bne_iff_ne.2 hne]

/-- Witness for C8: nonexistent account and wrong password at a concrete
store, same error value in both cases. -/
theorem C8_signin_uniform_error_witness :
    signin (fun p => p) (some storeWithUser) "none@example.com" "pw" =
        .err 401 "Invalid credentials" ∧
      signin (fun p => p) (some storeWithUser) "ada@example.com" "wrong" =
        .err 401 "Invalid credentials" :=
  ⟨(C8_signin_uniform_error (fun p => p) storeWithUser "none@example.com" "pw").1
      (by decide),
    (C8_signin_uniform_error (fun p => p) storeWithUser "ada@example.com" "wrong").2
      userA (by decide) (by decide)⟩

/-- C9: with the database handle uninitialized, each write operation
(signup, create-video, finalize) surfaces a server fault and leaves the
(absent) store untouched rather than silently no-opping. -/
theorem C9_writes_fault_without_store (hash : String → String)
    (name email password : String) (p : StepThree) (job_id : String) :
    (signup hash none name email password).1.isServerFault = true ∧
    (signup hash none name email password).2 = none ∧
    (create_video none p).1.isServerFault = true ∧
    (create_video none p).2 = none ∧
    (finalize_video none job_id).1.isServerFault = true ∧
    (finalize_video none job_id).2 = none := by
  refine ⟨rfl, rfl, ?_, ?_, rfl, rfl⟩ <;>
    cases h : mkVideoJob p "processing" <;>
      simp [create_video, h, Resp.isServerFault]

/-- C6: fetching a job by an id that is malformed (not a valid ObjectId
string) or absent from the store yields the 404 "Not found" client error,
never a server fault. -/
theorem C6_get_video_not_found (s : Store) (job_id : String)
    (h : isValidObjectId job_id = false ∨
      ∀ d ∈ s.videojobs, d.id ≠ normHex job_id) :
    get_video (some s) job_id = .err 404 "Not found" := by
  rcases h with h | h
  · simp [get_video, h]
  · have hnone : (s.videojobs.find? fun d => d.id == normHex job_id) = none :=
      List.find?_eq_none.2 fun d hd => by simp [h d hd]
    cases hvid : isValidObjectId job_id <;> simp [get_video, hvid, hnone]

/-- Witness for C6: a malformed id and a well-formed absent id. -/
theorem C6_get_video_not_found_witness :
    get_video (some storeWithJob) "not-an-objectid" = .err 404 "Not found" ∧
      get_video (some storeWithJob) "bbbbbbbbbbbbbbbbbbbbbbbb" =
        .err 404 "Not found" :=
  ⟨C6_get_video_not_found storeWithJob "not-an-objectid" (.inl (by decide)),
    C6_get_video_not_found storeWithJob "bbbbbbbbbbbbbbbbbbbbbbbb"
      (.inr (by decide))⟩

/-- C10: finalizing a well-formed job id that is absent from the store
returns the success payload with status "finalized" (no not-found error)
and leaves the store unchanged. -/
theorem C10_finalize_absent_id (s : Store) (job_id : String)
    (hid : isValidObjectId job_id = true)
    (habs : ∀ d ∈ s.videojobs, d.id ≠ normHex job_id) :
    finalize_video (some s) job_id =
      (.ok { id := job_id, status := "finalized" }, some s) := by
  have hupd :=
    updateFirst_of_no_match (finalizeMatch job_id) setFinalized
      s.videojobs (fun d hd => by simp [finalizeMatch, habs d hd])
  simp [finalize_video, hid, hupd]

/-- Witness for C10: a fresh id against a nonempty store. -/
theorem C10_finalize_absent_id_witness :
    finalize_video (some storeWithJob) "cccccccccccccccccccccccc" =
      (.ok { id := "cccccccccccccccccccccccc", status := "finalized" },
        some storeWithJob) :=
  C10_finalize_absent_id storeWithJob "cccccccccccccccccccccccc" (by decide)
    (by decide)

/-- C5: finalizing an existing job id succeeds, sets that job's status to
"finalized", and is idempotent: the second finalize returns the same
successful result and the same final store state. -/
theorem C5_finalize_idempotent (s : Store) (job_id : String)
    (hid : isValidObjectId job_id = true)
    (hex : ∃ d ∈ s.videojobs, d.id = normHex job_id) :
    ∃ s1 : Store,
      finalize_video (some s) job_id =
        (.ok { id := job_id, status := "finalized" }, some s1) ∧
      finalize_video (some s1) job_id =
        (.ok { id := job_id, status := "finalized" }, some s1) ∧
      ∃ d, get_video (some s1) job_id = .ok d ∧ d.job.status = "finalized" := by
  have hpf : ∀ d : JobDoc,
      finalizeMatch job_id (setFinalized d) = finalizeMatch job_id d :=
    fun d => rfl
  refine ⟨{ s with videojobs := (updateFirst (finalizeMatch job_id)
      setFinalized s.videojobs) }, ?_, ?_, ?_⟩
  · simp [finalize_video, hid]
  · simp only [finalize_video, hid, if_true]
    rw [updateFirst_updateFirst _ _ hpf fun d => rfl]
  · obtain ⟨d0, hd0, he0⟩ := hex
    have hsome : (s.videojobs.find? (finalizeMatch job_id)).isSome :=
      List.find?_isSome.2 ⟨d0, hd0, by simp [finalizeMatch, he0]⟩
    obtain ⟨v, hv⟩ := Option.isSome_iff_exists.mp hsome
    have hfind := find?_updateFirst (finalizeMatch job_id) setFinalized hpf
      s.videojobs
    rw [hv] at hfind
    refine ⟨docOut (setFinalized v), ?_, rfl⟩
    have : ((updateFirst (finalizeMatch job_id) setFinalized
        s.videojobs).find? fun d => d.id == normHex job_id) =
        some (setFinalized v) := hfind
    simp [get_video, hid, this]

/-- Witness for C5 at a concrete one-job store. -/
theorem C5_finalize_idempotent_witness :
    ∃ s1 : Store,
      finalize_video (some storeWithJob) idA =
        (.ok { id := idA, status := "finalized" }, some s1) ∧
      finalize_video (some s1) idA =
        (.ok { id := idA, status := "finalized" }, some s1) ∧
      ∃ d, get_video (some s1) idA = .ok d ∧ d.job.status = "finalized" :=
  C5_finalize_idempotent storeWithJob idA (by decide)
    ⟨(⟨idA, 0, sampleJob⟩ : JobDoc), by simp [storeWithJob], by decide⟩

/-- C3: with well-formed URL fields, job creation accepts a payload
exactly when `aspect_ratio` lies in its enumerated set and
`duration_seconds` lies in the inclusive range [5, 120]. -/
theorem C3_create_accepts_iff_bounds (s : Store) (p : StepThree)
    (hu : urlsOk p = true) :
    (∃ id, (create_video (some s) p).1 =
        .ok { id := id, status := "processing" }) ↔
      p.aspect_ratio ∈ aspectRatioValues ∧
        5 ≤ p.duration_seconds ∧ p.duration_seconds ≤ 120 := by
  constructor
  · rintro ⟨id, hid⟩
    cases hvv : videoJobValid p "processing" with
    | false =>
      rw [create_video, mkVideoJob, hvv] at hid
      simp at hid
    | true =>
      obtain ⟨h1, h2, h3, _, _⟩ := (videoJobValid_iff p "processing").mp hvv
      exact ⟨h1, h2, h3⟩
  · rintro ⟨h1, h2, h3⟩
    have hvv : videoJobValid p "processing" = true :=
      (videoJobValid_iff p "processing").mpr
        ⟨h1, h2, h3, by decide, hu⟩
    exact ⟨genId s.nextOid,
      by simp [create_video, mkVideoJob, hvv, create_document_videojob,
        jobOfPayload]⟩

/-- Witness for C3: boundary durations 5 and 120 and each listed aspect
ratio are accepted; durations 4 and 121 and a ratio outside the set are
rejected. -/
theorem C3_create_accepts_iff_bounds_witness :
    (∃ id, (create_video (some emptyStore)
        { sampleStep with duration_seconds := 5 }).1 =
      .ok { id := id, status := "processing" }) ∧
    (∃ id, (create_video (some emptyStore)
        { sampleStep with duration_seconds := 120 }).1 =
      .ok { id := id, status := "processing" }) ∧
    ¬ (∃ id, (create_video (some emptyStore)
        { sampleStep with duration_seconds := 4 }).1 =
      .ok { id := id, status := "processing" }) ∧
    ¬ (∃ id, (create_video (some emptyStore)
        { sampleStep with duration_seconds := 121 }).1 =
      .ok { id := id, status := "processing" }) ∧
    (∃ id, (create_video (some emptyStore)
        { sampleStep with aspect_ratio := "1:1" }).1 =
      .ok { id := id, status := "processing" }) ∧
    (∃ id, (create_video (some emptyStore)
        { sampleStep with aspect_ratio := "9:16" }).1 =
      .ok { id := id, status := "processing" }) ∧
    (∃ id, (create_video (some emptyStore)
        { sampleStep with aspect_ratio := "16:9" }).1 =
      .ok { id := id, status := "processing" }) ∧
    (∃ id, (create_video (some emptyStore)
        { sampleStep with aspect_ratio := "4:5" }).1 =
      .ok { id := id, status := "processing" }) ∧
    (∃ id, (create_video (some emptyStore)
        { sampleStep with aspect_ratio := "21:9" }).1 =
      .ok { id := id, status := "processing" }) ∧
    ¬ (∃ id, (create_video (some emptyStore)
        { sampleStep with aspect_ratio := "2:3" }).1 =
      .ok { id := id, status := "processing" }) := by
  refine ⟨?_, ?_, ?_, ?_, ?_, ?_, ?_, ?_, ?_, ?_⟩
  · exact (C3_create_accepts_iff_bounds emptyStore _ (by decide)).mpr
      ⟨by decide, by decide, by decide⟩
  · exact (C3_create_accepts_iff_bounds emptyStore _ (by decide)).mpr
      ⟨by decide, by decide, by decide⟩
  · intro hacc
    have := (C3_create_accepts_iff_bounds emptyStore _ (by decide)).mp hacc
    revert this; decide
  · intro hacc
    have := (C3_create_accepts_iff_bounds emptyStore _ (by decide)).mp hacc
    revert this; decide
  · exact (C3_create_accepts_iff_bounds emptyStore _ (by decide)).mpr
      ⟨by decide, by decide, by decide⟩
  · exact (C3_create_accepts_iff_bounds emptyStore _ (by decide)).mpr
      ⟨by decide, by decide, by decide⟩
  · exact (C3_create_accepts_iff_bounds emptyStore _ (by decide)).mpr
      ⟨by decide, by decide, by decide⟩
  · exact (C3_create_accepts_iff_bounds emptyStore _ (by decide)).mpr
      ⟨by decide, by decide, by decide⟩
  · exact (C3_create_accepts_iff_bounds emptyStore _ (by decide)).mpr
      ⟨by decide, by decide, by decide⟩
  · intro hacc
    have := (C3_create_accepts_iff_bounds emptyStore _ (by decide)).mp hacc
    revert this; decide

/-- C1: creating a job from a valid payload returns the fresh id with
status "processing", and fetching that id returns the stored record: the
VideoJob built from the submitted payload, every submitted field verbatim,
plus status "processing". -/
theorem C1_create_then_fetch (s : Store) (p : StepThree)
    (hv : videoJobValid p "processing" = true)
    (hfresh : ∀ d ∈ s.videojobs, d.id ≠ genId s.nextOid) :
    (create_video (some s) p).1 =
      .ok { id := genId s.nextOid, status := "processing" } ∧
    get_video (create_video (some s) p).2 (genId s.nextOid) =
      .ok { id := genId s.nextOid, created_at := s.now,
            job := jobOfPayload p "processing" } := by
  have hcv : create_video (some s) p =
      (.ok { id := genId s.nextOid, status := "processing" },
        some { s with
          videojobs := s.videojobs ++
            [{ id := genId s.nextOid, created_at := s.now,
               job := jobOfPayload p "processing" }]
          nextOid := s.nextOid + 1
          now := s.now + 1 }) := by
    simp [create_video, mkVideoJob, hv, create_document_videojob, jobOfPayload]
  refine ⟨by rw [hcv], ?_⟩
  rw [hcv]
  have hfind : ((s.videojobs ++
      [(⟨genId s.nextOid, s.now, jobOfPayload p "processing"⟩ : JobDoc)]).find?
        fun d => d.id == normHex (genId s.nextOid)) =
      some (⟨genId s.nextOid, s.now, jobOfPayload p "processing"⟩ : JobDoc) := by
    apply find?_append_fresh
    · intro x hx
      simp [normHex_genId, hfresh x hx]
    · simp [normHex_genId]
  exact get_video_found
    { s with
      videojobs := (s.videojobs ++
        [(⟨genId s.nextOid, s.now, jobOfPayload p "processing"⟩ : JobDoc)])
      nextOid := s.nextOid + 1
      now := s.now + 1 }
    (genId s.nextOid)
    (⟨genId s.nextOid, s.now, jobOfPayload p "processing"⟩ : JobDoc)
    (isValidObjectId_genId s.nextOid) hfind

/-- Witness for C1 at the empty store and a concrete payload. -/
theorem C1_create_then_fetch_witness :
    (create_video (some emptyStore) sampleStep).1 =
      .ok { id := genId emptyStore.nextOid, status := "processing" } ∧
    get_video (create_video (some emptyStore) sampleStep).2
        (genId emptyStore.nextOid) =
      .ok { id := genId emptyStore.nextOid, created_at := emptyStore.now,
            job := jobOfPayload sampleStep "processing" } :=
  C1_create_then_fetch emptyStore sampleStep (by decide)
    (by intro d hd; simp [emptyStore] at hd)

/-- A raw create-video body that is well-typed but carries
`duration_seconds = 4`, below the declared bound. -/
def rawDur4 : RawPayload :=
  { owner_email := some (.str "ada@example.com"),
    project_name := some (.str "p"), brand_name := some (.str "b"),
    brand_detail := some (.str ""), creative_prompt := some (.str "c"),
    target_audience := some (.str "t"), video_style := some (.str "v"),
    aspect_ratio := some (.str "16:9"), duration_seconds := some (.int 4),
    product_image_url := none, brand_logo_url := none,
    brand_guideline_url := none, reference_image_url := none }

/-- The StepThree payload `rawDur4` parses to. -/
def stepDur4 : StepThree := { sampleStep with duration_seconds := 4 }

/-- A raw create-video body missing the required `project_name` field. -/
def rawMissing : RawPayload := { rawDur4 with project_name := none }

/-- C2 counterexample: the payload with `duration_seconds = 4` is
malformed (it violates the declared numeric bound), the store is left
untouched, but the create-video operation answers with a server fault —
an uncaught pydantic ValidationError — not a client error. -/
theorem C2_counterexample_duration4_server_fault :
    parseStepThree (fun _ => true) rawDur4 = some stepDur4 ∧
    videoJobValid stepDur4 "processing" = false ∧
    (handle_create_video (fun _ => true) (some emptyStore) rawDur4).2 =
      some emptyStore ∧
    (handle_create_video (fun _ => true)
        (some emptyStore) rawDur4).1.isClientError = false ∧
    (handle_create_video (fun _ => true)
        (some emptyStore) rawDur4).1.isServerFault = true := by
  refine ⟨by decide, by decide, by decide, by decide, by decide⟩

/-- C2 (amended): a malformed create-video request writes nothing to the
store; when it fails request parsing (missing required field, wrong
primitive type, invalid email) the response is the 422 client error, while
a well-typed payload that violates the enumerated-set, numeric-bound or
URL constraints fails VideoJob validation inside the handler and surfaces
as a server fault. -/
theorem C2_create_video_reject_no_write (emailOk : String → Bool)
    (db : Option Store) (raw : RawPayload) :
    (parseStepThree emailOk raw = none →
      handle_create_video emailOk db raw =
        (.err 422 "Unprocessable Entity", db) ∧
      (Resp.err 422 "Unprocessable Entity" : Resp CreateOut).isClientError
        = true) ∧
    (∀ p, parseStepThree emailOk raw = some p →
      videoJobValid p "processing" = false →
      handle_create_video emailOk db raw =
        (.fault "pydantic.ValidationError", db) ∧
      (Resp.fault "pydantic.ValidationError" : Resp CreateOut).isServerFault
        = true) := by
  constructor
  · intro h
    exact ⟨by simp [handle_create_video, h], rfl⟩
  · intro p hp hvv
    exact ⟨by simp [handle_create_video, hp, create_video, mkVideoJob, hvv],
      rfl⟩

/-- Witness for the amended C2: a missing required field yields the 422
client error; an out-of-bound duration yields the server fault; neither
writes to the store. -/
theorem C2_create_video_reject_no_write_witness :
    handle_create_video (fun _ => true) (some emptyStore) rawMissing =
        (.err 422 "Unprocessable Entity", some emptyStore) ∧
      handle_create_video (fun _ => true) (some emptyStore) rawDur4 =
        (.fault "pydantic.ValidationError", some emptyStore) :=
  ⟨((C2_create_video_reject_no_write (fun _ => true) (some emptyStore)
      rawMissing).1 (by decide)).1,
    ((C2_create_video_reject_no_write (fun _ => true) (some emptyStore)
      rawDur4).2 stepDur4 (by decide) (by decide)).1⟩

/-- C7: the dashboard summary's `total` counts all of the owner's jobs,
its `processing` counts the owner's jobs whose status is "queued" or
"processing", and its `videos` list holds at most 20 of the owner's jobs
ordered newest first by creation time. -/
theorem C7_dashboard_summary (s : Store) (email : String) :
    ∃ vids : List JobOut,
      dashboard_summary (some s) email =
        .ok { total := (s.videojobs.filter fun d =>
                decide (d.job.owner_email = email)).length,
              processing := (s.videojobs.filter fun d =>
                decide (d.job.owner_email = email ∧
                  (d.job.status = "queued" ∨
                    d.job.status = "processing"))).length,
              videos := vids } ∧
      vids.length ≤ 20 ∧
      (∀ v ∈ vids, ∃ d ∈ s.videojobs,
        d.job.owner_email = email ∧ v = docOut d) ∧
      vids.Pairwise (fun a b => b.created_at ≤ a.created_at) := by
  have e1 : s.videojobs.filter (ownedBy email) =
      s.videojobs.filter fun d => decide (d.job.owner_email = email) :=
    List.filter_congr fun d _ => by
      rw [Bool.eq_iff_iff]; simp [ownedBy]
  have e2 : s.videojobs.filter (processingFilter email) =
      s.videojobs.filter fun d =>
        decide (d.job.owner_email = email ∧
          (d.job.status = "queued" ∨ d.job.status = "processing")) :=
    List.filter_congr fun d _ => by
      rw [Bool.eq_iff_iff]; simp [processingFilter]
  refine ⟨((List.insertionSort newerFirst
      (s.videojobs.filter (ownedBy email))).take 20).map docOut,
    ?_, ?_, ?_, ?_⟩
  · simp only [dashboard_summary]
    rw [e1, e2]
  · simp only [List.length_map]
    exact List.length_take_le _ _
  · intro v hv
    rw [List.mem_map] at hv
    obtain ⟨d, hd, rfl⟩ := hv
    have hd1 : d ∈ List.insertionSort newerFirst
        (s.videojobs.filter (ownedBy email)) :=
      (List.take_sublist _ _).subset hd
    rw [List.mem_insertionSort] at hd1
    rw [List.mem_filter] at hd1
    refine ⟨d, hd1.1, ?_, rfl⟩
    have := hd1.2
    simpa [ownedBy] using this
  · have hs : List.Sorted newerFirst (List.insertionSort newerFirst
        (s.videojobs.filter (ownedBy email))) :=
      List.sorted_insertionSort newerFirst _
    have ht : List.Pairwise newerFirst ((List.insertionSort newerFirst
        (s.videojobs.filter (ownedBy email))).take 20) :=
      hs.sublist (List.take_sublist _ _)
    rw [List.pairwise_map]
    exact ht.imp fun h => h

end GenAds
